import Mathlib

/-!
Shallow embedding of the PBOC fixing model (src/fixing_app.py) over the
rationals. Python floats are modelled as rationals; Python exceptions
(KeyError on a missing dict key, ZeroDivisionError, a failed download)
are modelled with Option, where none stands for a raised exception.
-/

namespace FixingApp

/-- One entry of the market snapshot dict: the literal dict
has keys rate and chg per currency pair. -/
structure PairData where
  rate : ℚ
  chg : ℚ
deriving DecidableEq

/-- The market snapshot is a Python dict from pair name to PairData;
modelled as an association list, with the absent case (None) carried by
Option at the use sites. -/
abbrev MarketData := List (String × PairData)

/-- One row of the downloaded Close table: a mapping from ticker symbol
to closing price. -/
abbrev Row := List (String × ℚ)

/-- The WEIGHTS dict (lines 22-30): approximate CFETS weights.
Lookup of a key not in the dict is a KeyError, hence Option. -/
def WEIGHTS (c : String) : Option ℚ :=
  if c = "USD" then some 0.198
  else if c = "EUR" then some 0.180
  else if c = "JPY" then some 0.090
  else if c = "KRW" then some 0.080
  else if c = "GBP" then some 0.030
  else if c = "AUD" then some 0.050
  else none

/-- The tickers dict of get_market_data (lines 37-43): pair name to
Yahoo ticker symbol. USDCNY is present, for reference only. -/
def tickers : List (String × String) :=
  [("EURUSD", "EURUSD=X"), ("USDJPY", "JPY=X"), ("GBPUSD", "GBPUSD=X"),
   ("AUDUSD", "AUDUSD=X"), ("USDCNY", "CNY=X")]

/-- Python float division: raises ZeroDivisionError when the divisor is
zero, modelled as none. -/
def safeDiv (a b : ℚ) : Option ℚ :=
  if b = 0 then none else some (a / b)

/-- The body of the try block of get_market_data (lines 48-64): from the
downloaded Close table (rows ascending by date) take the last close
(iloc[-1]) and the close before it (iloc[-2]), form the fractional
changes (last - prev) / prev, and build the snapshot dict for the four
pairs EURUSD, USDJPY, GBPUSD, AUDUSD. Any failure (fewer than two rows,
a missing ticker column) is an exception, i.e. none here; the USDCNY
reference column is never read into the snapshot. The division uses
numpy semantics which never raise, so it is total here. -/
def extract (df : List Row) : Option MarketData := do
  let last_close ← df.getLast?
  let prev_close ← df.dropLast.getLast?
  let change := fun (t : String) => do
    let l ← last_close.lookup t
    let p ← prev_close.lookup t
    pure ((l - p) / p)
  let entry := fun (t : String) => do
    let r ← last_close.lookup t
    let c ← change t
    pure (PairData.mk r c)
  let e ← entry "EURUSD=X"
  let j ← entry "JPY=X"
  let g ← entry "GBPUSD=X"
  let a ← entry "AUDUSD=X"
  pure [("EURUSD", e), ("USDJPY", j), ("GBPUSD", g), ("AUDUSD", a)]

/-- get_market_data (lines 35-69): the download itself is external I/O,
so its outcome is the argument (none models a raised download error, as
does any exception inside the try block: the except clause returns
None). -/
def get_market_data (fetch : Option (List Row)) : Option MarketData :=
  match fetch with
  | none => none
  | some df => extract df

/-- Python truthiness of the market_data value: None and the empty dict
are falsy, a non-empty dict is truthy. -/
def is_truthy : Option MarketData → Bool
  | none => false
  | some m => !m.isEmpty

/-- calculate_basket_impact (lines 71-97), parametrised by the weight
table (the source reads the module-level WEIGHTS dict). Returns 0.0
when market_data is falsy; otherwise accumulates the EUR, JPY, GBP
contributions. Dict lookups and the float divisions can raise, hence
Option. -/
def calculate_basket_impact_w (W : String → Option ℚ) (prev_fix : ℚ)
    (market_data : Option MarketData) : Option ℚ :=
  if is_truthy market_data = false then some 0.0
  else do
    let m ← market_data
    let eur ← m.lookup "EURUSD"
    let eur_move := eur.chg
    let wEUR ← W "EUR"
    let wUSD ← W "USD"
    let rEUR ← safeDiv wEUR (1 - wUSD)
    let impact1 := 0.0 - (eur_move * rEUR) * prev_fix * 10000
    let jpy ← m.lookup "USDJPY"
    let jpy_move := jpy.chg
    let wJPY ← W "JPY"
    let rJPY ← safeDiv wJPY (1 - wUSD)
    let impact2 := impact1 + (jpy_move * rJPY) * prev_fix * 10000
    let gbp ← m.lookup "GBPUSD"
    let gbp_move := gbp.chg
    let wGBP ← W "GBP"
    let rGBP ← safeDiv wGBP (1 - wUSD)
    let impact3 := impact2 - (gbp_move * rGBP) * prev_fix * 10000
    pure impact3

/-- calculate_basket_impact as in the source, with the module-level
WEIGHTS. -/
def calculate_basket_impact (prev_fix : ℚ) (market_data : Option MarketData) :
    Option ℚ :=
  calculate_basket_impact_w WEIGHTS prev_fix market_data

/-- The quantities computed by the calculation engine (lines 147-157)
together with the theoretical fix displayed at line 168. -/
structure Engine where
  gap_pips : ℚ
  basket_pips : ℚ
  ccf_pips : ℚ
  total_change_pips : ℚ
  predicted_fix : ℚ
  theoretical_fix : ℚ
deriving DecidableEq

/-- The calculation engine (lines 147-157 and the theoretical-fix
display at line 168): gap_pips, basket_pips, ccf_pips, their total,
the predicted fix, and predicted_fix - ccf_pips/10000. A raised
exception inside calculate_basket_impact propagates (the script has no
handler around it). -/
def compute (prev_close prev_fix : ℚ) (market_data : Option MarketData)
    (ccf_input : ℚ) : Option Engine := do
  let gap := (prev_close - prev_fix) * 10000
  let basket ← calculate_basket_impact prev_fix market_data
  let ccf := ccf_input
  let total := gap + basket + ccf
  let pred := prev_fix + (total / 10000)
  pure (Engine.mk gap basket ccf total pred (pred - (ccf / 10000)))

/-- The CCF slider bounds (lines 119-120): the input boundary clamps to
[-100, 100]; the calculator itself never consults these. -/
def ccf_min : ℚ := -100

/-- The CCF slider upper bound (line 120). -/
def ccf_max : ℚ := 100

/-- The volatility alert condition (line 189): evaluated on the final
predicted_fix. -/
def volatility_alert (e : Engine) (prev_close : ℚ) : Bool :=
  |e.predicted_fix - prev_close| > 0.0500

/-- Helper: the engine is the image of the basket impact under the
record constructor. -/
lemma compute_eq (pc pf : ℚ) (md : Option MarketData) (ccf : ℚ) :
    compute pc pf md ccf =
      (calculate_basket_impact pf md).map (fun basket =>
        Engine.mk ((pc - pf) * 10000) basket ccf
          ((pc - pf) * 10000 + basket + ccf)
          (pf + (((pc - pf) * 10000 + basket + ccf) / 10000))
          (pf + (((pc - pf) * 10000 + basket + ccf) / 10000) - (ccf / 10000))) := by
  unfold compute
  cases calculate_basket_impact pf md <;> rfl

/-- Helper: with an absent snapshot the basket impact is 0. -/
lemma basket_none (pf : ℚ) : calculate_basket_impact pf none = some 0 := by
  unfold calculate_basket_impact calculate_basket_impact_w
  rw [if_pos (show is_truthy none = false from rfl)]
  norm_num

/-- C1: for every input, the aggregation satisfies
total_change_pips = gap_pips + basket_pips + ccf_pips,
predicted_fix = prev_fix + total_change_pips / 10000,
theoretical_fix = predicted_fix - ccf_pips / 10000, and hence
theoretical_fix + ccf_pips / 10000 = predicted_fix and
theoretical_fix = prev_fix + (gap_pips + basket_pips) / 10000. -/
theorem C1_aggregation (pc pf : ℚ) (md : Option MarketData) (ccf : ℚ)
    (e : Engine) (h : compute pc pf md ccf = some e) :
    e.total_change_pips = e.gap_pips + e.basket_pips + e.ccf_pips ∧
    e.predicted_fix = pf + e.total_change_pips / 10000 ∧
    e.theoretical_fix = e.predicted_fix - e.ccf_pips / 10000 ∧
    e.theoretical_fix + e.ccf_pips / 10000 = e.predicted_fix ∧
    e.theoretical_fix = pf + (e.gap_pips + e.basket_pips) / 10000 := by
  rw [compute_eq] at h
  rcases hb : calculate_basket_impact pf md with _ | b <;> rw [hb] at h
  · exact Option.noConfusion h
  · simp only [Option.map_some', Option.some_inj] at h
    subst h
    refine ⟨rfl, rfl, rfl, by ring, by ring⟩

/-- C1 witness: the end-to-end scenario prev_close = 6.9850,
prev_fix = 6.9820, ccf = -10, market absent. -/
theorem C1_aggregation_witness :
    (Engine.mk 30 0 (-10) 20 6.984 6.985).total_change_pips =
        (Engine.mk 30 0 (-10) 20 6.984 6.985).gap_pips +
        (Engine.mk 30 0 (-10) 20 6.984 6.985).basket_pips +
        (Engine.mk 30 0 (-10) 20 6.984 6.985).ccf_pips ∧
    (Engine.mk 30 0 (-10) 20 6.984 6.985).predicted_fix =
        6.982 + (Engine.mk 30 0 (-10) 20 6.984 6.985).total_change_pips / 10000 ∧
    (Engine.mk 30 0 (-10) 20 6.984 6.985).theoretical_fix =
        (Engine.mk 30 0 (-10) 20 6.984 6.985).predicted_fix -
        (Engine.mk 30 0 (-10) 20 6.984 6.985).ccf_pips / 10000 ∧
    (Engine.mk 30 0 (-10) 20 6.984 6.985).theoretical_fix +
        (Engine.mk 30 0 (-10) 20 6.984 6.985).ccf_pips / 10000 =
        (Engine.mk 30 0 (-10) 20 6.984 6.985).predicted_fix ∧
    (Engine.mk 30 0 (-10) 20 6.984 6.985).theoretical_fix =
        6.982 + ((Engine.mk 30 0 (-10) 20 6.984 6.985).gap_pips +
        (Engine.mk 30 0 (-10) 20 6.984 6.985).basket_pips) / 10000 :=
  C1_aggregation 6.985 6.982 none (-10) (Engine.mk 30 0 (-10) 20 6.984 6.985)
    (by rw [compute_eq, basket_none]
        simp only [Option.map_some', Option.some_inj, Engine.mk.injEq]
        norm_num)

/-- C3: the gap component equals (prev_close - prev_fix) * 10000 for
all inputs, independent of the snapshot and of ccf, and it enters the
total at full weight 1.0 (no damping factor). -/
theorem C3_gap_component (pc pf : ℚ) (md : Option MarketData) (ccf : ℚ)
    (e : Engine) (h : compute pc pf md ccf = some e) :
    e.gap_pips = (pc - pf) * 10000 ∧
    e.total_change_pips = (pc - pf) * 10000 + e.basket_pips + e.ccf_pips := by
  rw [compute_eq] at h
  rcases hb : calculate_basket_impact pf md with _ | b <;> rw [hb] at h
  · exact Option.noConfusion h
  · simp only [Option.map_some', Option.some_inj] at h
    subst h
    exact ⟨rfl, rfl⟩

/-- C3 witness: a concrete instantiation of the gap law. -/
theorem C3_gap_component_witness :
    (Engine.mk 30 0 (-10) 20 6.984 6.985).gap_pips = (6.985 - 6.982) * 10000 ∧
    (Engine.mk 30 0 (-10) 20 6.984 6.985).total_change_pips =
      (6.985 - 6.982) * 10000 + (Engine.mk 30 0 (-10) 20 6.984 6.985).basket_pips +
      (Engine.mk 30 0 (-10) 20 6.984 6.985).ccf_pips :=
  C3_gap_component 6.985 6.982 none (-10) (Engine.mk 30 0 (-10) 20 6.984 6.985)
    (by rw [compute_eq, basket_none]
        simp only [Option.map_some', Option.some_inj, Engine.mk.injEq]
        norm_num)

/-- C6: ccf_input is added verbatim into total_change_pips, with no
transformation or clamping, for every value including values outside
[ccf_min, ccf_max]. -/
theorem C6_ccf_verbatim (pc pf : ℚ) (md : Option MarketData) (ccf : ℚ)
    (e : Engine) (h : compute pc pf md ccf = some e) :
    e.ccf_pips = ccf ∧
    e.total_change_pips = e.gap_pips + e.basket_pips + ccf ∧
    e.predicted_fix = pf + (e.gap_pips + e.basket_pips + ccf) / 10000 := by
  rw [compute_eq] at h
  rcases hb : calculate_basket_impact pf md with _ | b <;> rw [hb] at h
  · exact Option.noConfusion h
  · simp only [Option.map_some', Option.some_inj] at h
    subst h
    exact ⟨rfl, rfl, rfl⟩

/-- C6 witness: ccf = 350 lies outside the slider range
[ccf_min, ccf_max] = [-100, 100] and is still added verbatim. -/
theorem C6_ccf_verbatim_witness :
    ccf_max < 350 ∧
    ((Engine.mk 0 0 350 350 7.035 7).ccf_pips = 350 ∧
     (Engine.mk 0 0 350 350 7.035 7).total_change_pips =
       (Engine.mk 0 0 350 350 7.035 7).gap_pips +
       (Engine.mk 0 0 350 350 7.035 7).basket_pips + 350 ∧
     (Engine.mk 0 0 350 350 7.035 7).predicted_fix =
       7 + ((Engine.mk 0 0 350 350 7.035 7).gap_pips +
            (Engine.mk 0 0 350 350 7.035 7).basket_pips + 350) / 10000) :=
  ⟨by norm_num [ccf_max],
   C6_ccf_verbatim 7 7 none 350 (Engine.mk 0 0 350 350 7.035 7)
     (by rw [compute_eq, basket_none]
         simp only [Option.map_some', Option.some_inj, Engine.mk.injEq]
         norm_num)⟩

/-- C9: the high-volatility flag is raised exactly when
abs(predicted_fix - prev_close) > 0.0500, evaluated on the final
predicted_fix (which includes the CCF component). -/
theorem C9_volatility_flag (pc pf : ℚ) (md : Option MarketData) (ccf : ℚ)
    (e : Engine) (h : compute pc pf md ccf = some e) :
    (volatility_alert e pc = true ↔ |e.predicted_fix - pc| > 0.0500) ∧
    (volatility_alert e pc = true ↔
      |pf + ((pc - pf) * 10000 + e.basket_pips + ccf) / 10000 - pc| > 0.0500) := by
  have h1 : volatility_alert e pc = true ↔ |e.predicted_fix - pc| > 0.0500 := by
    simp [volatility_alert]
  refine ⟨h1, ?_⟩
  rw [compute_eq] at h
  rcases hb : calculate_basket_impact pf md with _ | b <;> rw [hb] at h
  · exact Option.noConfusion h
  · simp only [Option.map_some', Option.some_inj] at h
    subst h
    exact h1

/-- C9 witness: with prev_close = 7, prev_fix = 7, market absent and
ccf = 800 the final predicted fix is 7.08, which trips the flag, while
the theoretical fix is exactly 7 and would not: the threshold is
evaluated on predicted_fix, not theoretical_fix. -/
theorem C9_volatility_flag_witness :
    ((volatility_alert (Engine.mk 0 0 800 800 7.08 7) 7 = true ↔
        |(Engine.mk 0 0 800 800 7.08 7).predicted_fix - 7| > 0.0500) ∧
     (volatility_alert (Engine.mk 0 0 800 800 7.08 7) 7 = true ↔
        |(7 : ℚ) + ((7 - 7) * 10000 +
          (Engine.mk 0 0 800 800 7.08 7).basket_pips + 800) / 10000 - 7| >
          0.0500)) ∧
    volatility_alert (Engine.mk 0 0 800 800 7.08 7) 7 = true ∧
    ¬ (|(Engine.mk 0 0 800 800 7.08 7).theoretical_fix - 7| > (0.0500 : ℚ)) :=
  ⟨C9_volatility_flag 7 7 none 800 (Engine.mk 0 0 800 800 7.08 7)
     (by rw [compute_eq, basket_none]
         simp only [Option.map_some', Option.some_inj, Engine.mk.injEq]
         norm_num),
   by simp only [volatility_alert, decide_eq_true_eq]
      show |(7.08 : ℚ) - 7| > 0.0500
      rw [show (7.08 : ℚ) - 7 = 0.08 by norm_num]
      rw [abs_of_nonneg (by norm_num : (0:ℚ) ≤ 0.08)]
      norm_num,
   by show ¬ (|(7 : ℚ) - 7| > (0.0500 : ℚ))
      rw [sub_self, abs_zero]
      norm_num⟩

/-- Helper: on a snapshot holding the three consumed pairs and a
weight table resolving the four consumed weights with nonzero
denominator, the basket impact is the accumulated three-term sum. -/
lemma basket_eq (W : String → Option ℚ) (pf : ℚ) (m : MarketData)
    (hm : m.isEmpty = false)
    (rE cE rJ cJ rG cG wE wJ wG wU : ℚ)
    (hE : m.lookup "EURUSD" = some (PairData.mk rE cE))
    (hJ : m.lookup "USDJPY" = some (PairData.mk rJ cJ))
    (hG : m.lookup "GBPUSD" = some (PairData.mk rG cG))
    (hWE : W "EUR" = some wE) (hWJ : W "JPY" = some wJ)
    (hWG : W "GBP" = some wG) (hWU : W "USD" = some wU)
    (hden : (1 : ℚ) - wU ≠ 0) :
    calculate_basket_impact_w W pf (some m) =
      some (0.0 - (cE * (wE / (1 - wU))) * pf * 10000
            + (cJ * (wJ / (1 - wU))) * pf * 10000
            - (cG * (wG / (1 - wU))) * pf * 10000) := by
  have hsdE : safeDiv wE (1 - wU) = some (wE / (1 - wU)) := by
    unfold safeDiv
    rw [if_neg hden]
  have hsdJ : safeDiv wJ (1 - wU) = some (wJ / (1 - wU)) := by
    unfold safeDiv
    rw [if_neg hden]
  have hsdG : safeDiv wG (1 - wU) = some (wG / (1 - wU)) := by
    unfold safeDiv
    rw [if_neg hden]
  unfold calculate_basket_impact_w
  rw [if_neg (by simp [is_truthy, hm])]
  simp only [Option.bind_eq_bind, Option.some_bind, hE, hJ, hG, hWE, hWJ, hWG,
    hWU, hsdE, hsdJ, hsdG]
  rfl

/-- C2: for every present four-pair snapshot, positive prev_fix and
weight table with W USD < 1, the basket component is exactly the
three-term EUR/JPY/GBP sum of the spec; when the three chg values are 0
it is 0; the AUDUSD change cA never enters the sum. -/
theorem C2_basket_formula (W : String → Option ℚ) (pf : ℚ) (hpf : 0 < pf)
    (wE wJ wG wU : ℚ)
    (hWE : W "EUR" = some wE) (hWJ : W "JPY" = some wJ)
    (hWG : W "GBP" = some wG) (hWU : W "USD" = some wU) (hU : wU < 1)
    (rE rJ rG rA cE cJ cG cA : ℚ) :
    calculate_basket_impact_w W pf
        (some [("EURUSD", PairData.mk rE cE), ("USDJPY", PairData.mk rJ cJ),
               ("GBPUSD", PairData.mk rG cG), ("AUDUSD", PairData.mk rA cA)]) =
      some (-(cE * (wE / (1 - wU))) * pf * 10000
            + (cJ * (wJ / (1 - wU))) * pf * 10000
            - (cG * (wG / (1 - wU))) * pf * 10000) ∧
    (cE = 0 → cJ = 0 → cG = 0 →
      calculate_basket_impact_w W pf
          (some [("EURUSD", PairData.mk rE cE), ("USDJPY", PairData.mk rJ cJ),
                 ("GBPUSD", PairData.mk rG cG), ("AUDUSD", PairData.mk rA cA)]) =
        some 0) := by
  have hden : (1 : ℚ) - wU ≠ 0 := by
    intro h0
    have hu1 : wU = 1 := by linarith
    rw [hu1] at hU
    exact absurd hU (lt_irrefl 1)
  have hmain := basket_eq W pf
    [("EURUSD", PairData.mk rE cE), ("USDJPY", PairData.mk rJ cJ),
     ("GBPUSD", PairData.mk rG cG), ("AUDUSD", PairData.mk rA cA)]
    rfl rE cE rJ cJ rG cG wE wJ wG wU rfl rfl rfl hWE hWJ hWG hWU hden
  constructor
  · rw [hmain]
    congr 1
    ring
  · intro h1 h2 h3
    subst h1; subst h2; subst h3
    rw [hmain]
    congr 1
    norm_num

/-- C2 witness: the configured weight table, prev_fix = 7, and a
concrete snapshot. -/
theorem C2_basket_formula_witness :
    calculate_basket_impact_w WEIGHTS 7
        (some [("EURUSD", PairData.mk 1.05 0.01), ("USDJPY", PairData.mk 150 0.02),
               ("GBPUSD", PairData.mk 1.27 0.03), ("AUDUSD", PairData.mk 0.66 0.04)]) =
      some (-(0.01 * (0.180 / (1 - 0.198))) * 7 * 10000
            + (0.02 * (0.090 / (1 - 0.198))) * 7 * 10000
            - (0.03 * (0.030 / (1 - 0.198))) * 7 * 10000) ∧
    ((0.01 : ℚ) = 0 → (0.02 : ℚ) = 0 → (0.03 : ℚ) = 0 →
      calculate_basket_impact_w WEIGHTS 7
          (some [("EURUSD", PairData.mk 1.05 0.01), ("USDJPY", PairData.mk 150 0.02),
                 ("GBPUSD", PairData.mk 1.27 0.03), ("AUDUSD", PairData.mk 0.66 0.04)]) =
        some 0) :=
  C2_basket_formula WEIGHTS 7 (by norm_num) 0.180 0.090 0.030 0.198
    rfl rfl rfl rfl (by norm_num) 1.05 150 1.27 0.66 0.01 0.02 0.03 0.04

/-- C7: the basket computation divides only by 1 - W USD; the
configured table has W USD = 0.198 < 1, the denominator is nonzero, and
the division-by-zero branch is unreachable: on any snapshot holding the
three consumed pairs the computation returns a value (and it returns 0
on the absent snapshot). -/
theorem C7_denominator_safe (pf : ℚ) (a : String × PairData) (l : MarketData)
    (eE eJ eG : PairData)
    (hE : List.lookup "EURUSD" (a :: l) = some eE)
    (hJ : List.lookup "USDJPY" (a :: l) = some eJ)
    (hG : List.lookup "GBPUSD" (a :: l) = some eG) :
    WEIGHTS "USD" = some 0.198 ∧ ((0.198 : ℚ) < 1) ∧ ((1 : ℚ) - 0.198 ≠ 0) ∧
    (∃ q, calculate_basket_impact pf (some (a :: l)) = some q) ∧
    calculate_basket_impact pf none = some 0 := by
  refine ⟨rfl, by norm_num, by norm_num, ?_, basket_none pf⟩
  exact ⟨_, basket_eq WEIGHTS pf (a :: l) rfl eE.rate eE.chg eJ.rate eJ.chg
    eG.rate eG.chg 0.180 0.090 0.030 0.198 hE hJ hG rfl rfl rfl rfl
    (by norm_num)⟩

/-- C7 witness: a concrete three-pair snapshot. -/
theorem C7_denominator_safe_witness :
    WEIGHTS "USD" = some 0.198 ∧ ((0.198 : ℚ) < 1) ∧ ((1 : ℚ) - 0.198 ≠ 0) ∧
    (∃ q, calculate_basket_impact 7
        (some (("EURUSD", PairData.mk 1.05 0.01) ::
               [("USDJPY", PairData.mk 150 0.02),
                ("GBPUSD", PairData.mk 1.27 0.03)])) = some q) ∧
    calculate_basket_impact 7 none = some 0 :=
  C7_denominator_safe 7 ("EURUSD", PairData.mk 1.05 0.01)
    [("USDJPY", PairData.mk 150 0.02), ("GBPUSD", PairData.mk 1.27 0.03)]
    (PairData.mk 1.05 0.01) (PairData.mk 150 0.02) (PairData.mk 1.27 0.03)
    rfl rfl rfl

/-- C8: with the configured weights, chg EURUSD = -0.01, prev_fix = 7
and all other changes 0, the basket component equals
(0.01 * (0.180 / 0.802)) * 7 * 10000, which is positive and about
+157.1 pips. -/
theorem C8_sign_test :
    calculate_basket_impact 7.0000
        (some [("EURUSD", PairData.mk 1.08 (-0.01)),
               ("USDJPY", PairData.mk 150 0),
               ("GBPUSD", PairData.mk 1.27 0),
               ("AUDUSD", PairData.mk 0.66 0)]) =
      some ((0.01 * (0.180 / 0.802)) * 7.0000 * 10000) ∧
    (157 : ℚ) < (0.01 * (0.180 / 0.802)) * 7.0000 * 10000 ∧
    ((0.01 * (0.180 / 0.802)) * 7.0000 * 10000 : ℚ) < 157.2 ∧
    (0 : ℚ) < (0.01 * (0.180 / 0.802)) * 7.0000 * 10000 := by
  refine ⟨?_, by norm_num, by norm_num, by norm_num⟩
  unfold calculate_basket_impact
  rw [basket_eq WEIGHTS 7.0000
    [("EURUSD", PairData.mk 1.08 (-0.01)), ("USDJPY", PairData.mk 150 0),
     ("GBPUSD", PairData.mk 1.27 0), ("AUDUSD", PairData.mk 0.66 0)]
    rfl 1.08 (-0.01) 150 0 1.27 0 0.180 0.090 0.030 0.198
    rfl rfl rfl rfl rfl rfl rfl (by norm_num)]
  congr 1
  norm_num

/-- Helper: a successful extraction is never partial: the snapshot has
exactly the four pair keys. -/
lemma extract_shape (df : List Row) (md : MarketData) (h : extract df = some md) :
    ∃ e j g a, md = [("EURUSD", e), ("USDJPY", j), ("GBPUSD", g), ("AUDUSD", a)] := by
  unfold extract at h
  simp only [Option.bind_eq_bind, Option.bind_eq_some, Option.pure_def,
    Option.some_inj] at h
  obtain ⟨last, hlast, prev, hprev, e, he, j, hj, g, hg, a, ha, hmd⟩ := h
  exact ⟨_, _, _, _, hmd.symm⟩

/-- Helper: fewer than two rows of history make the extractor fail. -/
lemma extract_short (df : List Row) (h : df.length < 2) : extract df = none := by
  match df, h with
  | [], _ => rfl
  | [r], _ => rfl

/-- Helper: with two rows available and all four tickers resolving in
both, extraction yields the four-pair snapshot with rate the latest
close and chg the fractional change between the two closes. -/
lemma extract_full (df : List Row) (lastRow prevRow : Row)
    (hlast : df.getLast? = some lastRow)
    (hprev : df.dropLast.getLast? = some prevRow)
    (lE pE lJ pJ lG pG lA pA : ℚ)
    (hlE : lastRow.lookup "EURUSD=X" = some lE)
    (hpE : prevRow.lookup "EURUSD=X" = some pE)
    (hlJ : lastRow.lookup "JPY=X" = some lJ)
    (hpJ : prevRow.lookup "JPY=X" = some pJ)
    (hlG : lastRow.lookup "GBPUSD=X" = some lG)
    (hpG : prevRow.lookup "GBPUSD=X" = some pG)
    (hlA : lastRow.lookup "AUDUSD=X" = some lA)
    (hpA : prevRow.lookup "AUDUSD=X" = some pA) :
    extract df =
      some [("EURUSD", PairData.mk lE ((lE - pE) / pE)),
            ("USDJPY", PairData.mk lJ ((lJ - pJ) / pJ)),
            ("GBPUSD", PairData.mk lG ((lG - pG) / pG)),
            ("AUDUSD", PairData.mk lA ((lA - pA) / pA))] := by
  unfold extract
  simp only [Option.bind_eq_bind, Option.some_bind, hlast, hprev, hlE, hpE,
    hlJ, hpJ, hlG, hpG, hlA, hpA]
  rfl

/-- C4: a failed download, or a table with fewer than two rows, yields
an absent snapshot; the extractor never yields a partial snapshot (its
result is absent or a full four-pair snapshot); and with an absent
snapshot the calculator yields basket_pips = 0 and still produces a
complete prediction without aborting. -/
theorem C4_absent_snapshot_degrades :
    get_market_data none = none ∧
    (∀ df : List Row, df.length < 2 → get_market_data (some df) = none) ∧
    (∀ fetch : Option (List Row),
      get_market_data fetch = none ∨
      ∃ e j g a, get_market_data fetch =
        some [("EURUSD", e), ("USDJPY", j), ("GBPUSD", g), ("AUDUSD", a)]) ∧
    (∀ pc pf ccf : ℚ, ∃ en : Engine,
      compute pc pf none ccf = some en ∧ en.basket_pips = 0) := by
  refine ⟨rfl, ?_, ?_, ?_⟩
  · intro df h
    exact extract_short df h
  · intro fetch
    cases fetch with
    | none => exact Or.inl rfl
    | some df =>
      cases hx : extract df with
      | none => exact Or.inl hx
      | some md =>
        obtain ⟨e, j, g, a, hmd⟩ := extract_shape df md hx
        refine Or.inr ⟨e, j, g, a, ?_⟩
        rw [show get_market_data (some df) = extract df from rfl, hx, hmd]
  · intro pc pf ccf
    refine ⟨Engine.mk ((pc - pf) * 10000) 0 ccf ((pc - pf) * 10000 + 0 + ccf)
      (pf + (((pc - pf) * 10000 + 0 + ccf) / 10000))
      (pf + (((pc - pf) * 10000 + 0 + ccf) / 10000) - (ccf / 10000)), ?_, rfl⟩
    rw [compute_eq, basket_none]
    rfl

/-- C4 witness: a one-row table is rejected as absent. -/
theorem C4_absent_snapshot_degrades_witness :
    get_market_data (some ([[("EURUSD=X", (1.05 : ℚ))]] : List Row)) = none :=
  C4_absent_snapshot_degrades.2.1 [[("EURUSD=X", (1.05 : ℚ))]] (by decide)

/-- C5: on a successful fetch the extractor returns a snapshot for
exactly the four pairs EURUSD, USDJPY, GBPUSD, AUDUSD, with rate the
latest close and chg = (latest - prior) / prior from the two most
recent rows; USDCNY is in the fetched ticker table but excluded from
the snapshot. -/
theorem C5_extractor_snapshot (df : List Row) (lastRow prevRow : Row)
    (hlast : df.getLast? = some lastRow)
    (hprev : df.dropLast.getLast? = some prevRow)
    (lE pE lJ pJ lG pG lA pA : ℚ)
    (hlE : lastRow.lookup "EURUSD=X" = some lE)
    (hpE : prevRow.lookup "EURUSD=X" = some pE)
    (hlJ : lastRow.lookup "JPY=X" = some lJ)
    (hpJ : prevRow.lookup "JPY=X" = some pJ)
    (hlG : lastRow.lookup "GBPUSD=X" = some lG)
    (hpG : prevRow.lookup "GBPUSD=X" = some pG)
    (hlA : lastRow.lookup "AUDUSD=X" = some lA)
    (hpA : prevRow.lookup "AUDUSD=X" = some pA) :
    get_market_data (some df) =
      some [("EURUSD", PairData.mk lE ((lE - pE) / pE)),
            ("USDJPY", PairData.mk lJ ((lJ - pJ) / pJ)),
            ("GBPUSD", PairData.mk lG ((lG - pG) / pG)),
            ("AUDUSD", PairData.mk lA ((lA - pA) / pA))] ∧
    List.map Prod.fst
        [("EURUSD", PairData.mk lE ((lE - pE) / pE)),
         ("USDJPY", PairData.mk lJ ((lJ - pJ) / pJ)),
         ("GBPUSD", PairData.mk lG ((lG - pG) / pG)),
         ("AUDUSD", PairData.mk lA ((lA - pA) / pA))] =
      ["EURUSD", "USDJPY", "GBPUSD", "AUDUSD"] ∧
    ("USDCNY", "CNY=X") ∈ tickers ∧
    "USDCNY" ∉ ["EURUSD", "USDJPY", "GBPUSD", "AUDUSD"] := by
  refine ⟨?_, rfl, by decide, by decide⟩
  exact extract_full df lastRow prevRow hlast hprev lE pE lJ pJ lG pG lA pA
    hlE hpE hlJ hpJ hlG hpG hlA hpA

/-- C5 witness: a concrete two-row table carrying all five tickers. -/
theorem C5_extractor_snapshot_witness :
    get_market_data (some
        ([[("EURUSD=X", 1.10), ("JPY=X", 155), ("GBPUSD=X", 1.30),
           ("AUDUSD=X", 0.70), ("CNY=X", 7.10)],
          [("EURUSD=X", 1.05), ("JPY=X", 150), ("GBPUSD=X", 1.27),
           ("AUDUSD=X", 0.66), ("CNY=X", 7.20)]] : List Row)) =
      some [("EURUSD", PairData.mk 1.05 ((1.05 - 1.10) / 1.10)),
            ("USDJPY", PairData.mk 150 ((150 - 155) / 155)),
            ("GBPUSD", PairData.mk 1.27 ((1.27 - 1.30) / 1.30)),
            ("AUDUSD", PairData.mk 0.66 ((0.66 - 0.70) / 0.70))] ∧
    List.map Prod.fst
        [("EURUSD", PairData.mk (1.05 : ℚ) ((1.05 - 1.10) / 1.10)),
         ("USDJPY", PairData.mk 150 ((150 - 155) / 155)),
         ("GBPUSD", PairData.mk 1.27 ((1.27 - 1.30) / 1.30)),
         ("AUDUSD", PairData.mk 0.66 ((0.66 - 0.70) / 0.70))] =
      ["EURUSD", "USDJPY", "GBPUSD", "AUDUSD"] ∧
    ("USDCNY", "CNY=X") ∈ tickers ∧
    "USDCNY" ∉ ["EURUSD", "USDJPY", "GBPUSD", "AUDUSD"] :=
  C5_extractor_snapshot
    [[("EURUSD=X", 1.10), ("JPY=X", 155), ("GBPUSD=X", 1.30),
      ("AUDUSD=X", 0.70), ("CNY=X", 7.10)],
     [("EURUSD=X", 1.05), ("JPY=X", 150), ("GBPUSD=X", 1.27),
      ("AUDUSD=X", 0.66), ("CNY=X", 7.20)]]
    [("EURUSD=X", 1.05), ("JPY=X", 150), ("GBPUSD=X", 1.27),
     ("AUDUSD=X", 0.66), ("CNY=X", 7.20)]
    [("EURUSD=X", 1.10), ("JPY=X", 155), ("GBPUSD=X", 1.30),
     ("AUDUSD=X", 0.70), ("CNY=X", 7.10)]
    rfl rfl 1.05 1.10 150 155 1.27 1.30 0.66 0.70
    rfl rfl rfl rfl rfl rfl rfl rfl

/-- C10: the presence check is falsiness-based, so the empty snapshot
dict behaves exactly like the absent (None) snapshot: the basket impact
is 0.0 and no missing-key error is raised, for every prev_fix. -/
theorem C10_empty_snapshot (pf : ℚ) :
    calculate_basket_impact pf (some ([] : MarketData)) = some 0 ∧
    calculate_basket_impact pf (some ([] : MarketData)) =
      calculate_basket_impact pf none := by
  refine ⟨?_, rfl⟩
  unfold calculate_basket_impact calculate_basket_impact_w
  rw [if_pos (show is_truthy (some ([] : MarketData)) = false from rfl)]
  norm_num

end FixingApp
